import Mathlib

/-
Verification of the chromatic-aberration false-color filtering pipeline
(chromatic_aberration_correction.pyx). Planes are modelled as total
functions on integer coordinates with exact rational samples; buffers
that the source allocates with np.empty and reads before writing are
modelled by explicit initial-content parameters.
-/

namespace CAC

abbrev Plane : Type := ℤ → ℤ → ℚ

abbrev Image : Type := ℤ → ℤ → ℚ × ℚ × ℚ

/-- epsilon guard used in the source (1e-8). -/
def eps : ℚ := 1 / 100000000

/-- sign of a number (source lines 248-268). -/
def sign (x : ℚ) : ℤ :=
  if x > 0 then 1 else if x < 0 then -1 else 0

/-- clip of K against the reference K_ref (source lines 274-297, Eq. (9)). -/
def clip (K K_ref : ℚ) : ℚ :=
  if K_ref > 0 then min K K_ref
  else if K_ref < 0 then max K K_ref
  else K_ref

/-- forward difference along the second axis (source grad, lines 223-242);
the source leaves column 0 of the output buffer uninitialized (np.empty),
modelled by the row-indexed parameter g0. -/
def gradP (X : Plane) (g0 : ℤ → ℚ) : Plane :=
  fun i j => if 1 ≤ j then X i j - X i (j - 1) else g0 i

/-- the four running extrema of the envelope scan (source X_Emax, X_Emin,
X_Wmax, X_Wmin). -/
structure EnvAcc where
  emax : ℚ
  emin : ℚ
  wmax : ℚ
  wmin : ℚ

/-- one iteration of the envelope scan of ti_and_ca_filtering1D
(source lines 374-382): East candidates at column j+l+1, West at j-L+l. -/
def envStep (X : Plane) (i j : ℤ) (L : ℕ) (a : EnvAcc) (l : ℕ) : EnvAcc :=
  { emax := if X i (j + (l : ℤ) + 1) > a.emax then X i (j + (l : ℤ) + 1) else a.emax
    emin := if X i (j + (l : ℤ) + 1) < a.emin then X i (j + (l : ℤ) + 1) else a.emin
    wmax := if X i (j - (L : ℤ) + (l : ℤ)) > a.wmax then X i (j - (L : ℤ) + (l : ℤ)) else a.wmax
    wmin := if X i (j - (L : ℤ) + (l : ℤ)) < a.wmin then X i (j - (L : ℤ) + (l : ℤ)) else a.wmin }

/-- the envelope scan over l = 0..L-1, all four accumulators starting at the
center sample (source lines 367-382). -/
def envLoop (X : Plane) (L : ℕ) (i j : ℤ) : EnvAcc :=
  (List.range L).foldl (envStep X i j L) ⟨X i j, X i j, X i j, X i j⟩

/-- selected local maximum X_max[i,j] (source lines 385-390, Eq. (3)). -/
def X_max_env (X : Plane) (L : ℕ) (i j : ℤ) : ℚ :=
  if (envLoop X L i j).emax - (envLoop X L i j).wmin ≥ (envLoop X L i j).wmax - (envLoop X L i j).emin
  then (envLoop X L i j).emax else (envLoop X L i j).wmax

/-- selected local minimum X_min[i,j] (source lines 385-390, Eq. (3)). -/
def X_min_env (X : Plane) (L : ℕ) (i j : ℤ) : ℚ :=
  if (envLoop X L i j).emax - (envLoop X L i j).wmin ≥ (envLoop X L i j).wmax - (envLoop X L i j).emin
  then (envLoop X L i j).wmin else (envLoop X L i j).emin

/-- column of offset index l (the source accesses X_in[i, j + l - L]). -/
def offCol (L : ℕ) (j : ℤ) (l : ℕ) : ℤ := j + (l : ℤ) - (L : ℤ)

/-- admissible upper bound X_TImax at offset l (source lines 394-401). -/
def X_TImax (X G : Plane) (L : ℕ) (i j : ℤ) (l : ℕ) : ℚ :=
  if X i j > G i j then X i (offCol L j l)
  else min (X_max_env X L i j) (G i (offCol L j l))

/-- admissible lower bound X_TImin at offset l (source lines 394-401). -/
def X_TImin (X G : Plane) (L : ℕ) (i j : ℤ) (l : ℕ) : ℚ :=
  if X i j > G i j then max (X_min_env X L i j) (G i (offCol L j l))
  else X i (offCol L j l)

/-- prefiltered sample X_pf at offset l (source lines 394-399, Eqs. (1), (4)). -/
def X_pf (X G : Plane) (L : ℕ) (rho : ℚ × ℚ × ℚ) (i j : ℤ) (l : ℕ) : ℚ :=
  if X i j > G i j then
    rho.1 * X_max_env X L i j + rho.2.1 * X i (offCol L j l) + rho.2.2 * X_min_env X L i j
  else
    rho.1 * X_min_env X L i j + rho.2.1 * X i (offCol L j l) + rho.2.2 * X_max_env X L i j

/-- TI-reconstructed sample at offset l, X_pf clipped into the admissible
interval (source lines 404-409, Eq. (5)). -/
def X_TI (X G : Plane) (L : ℕ) (rho : ℚ × ℚ × ℚ) (i j : ℤ) (l : ℕ) : ℚ :=
  if X_pf X G L rho i j l > X_TImax X G L i j l then X_TImax X G L i j l
  else if X_pf X G L rho i j l < X_TImin X G L i j l then X_TImin X G L i j l
  else X_pf X G L rho i j l

/-- TI chroma at offset l (source line 412, Eq. (7)). -/
def K_TI (X G : Plane) (L : ℕ) (rho : ℚ × ℚ × ℚ) (i j : ℤ) (l : ℕ) : ℚ :=
  X_TI X G L rho i j l - G i (offCol L j l)

/-- TI chroma at the window center, l = L (stored as K_TI_hor, source line 437). -/
def K_TI_center (X G : Plane) (L : ℕ) (rho : ℚ × ℚ × ℚ) (i j : ℤ) : ℚ :=
  K_TI X G L rho i j L

/-- the value the buffer cell K_TI[i, L] holds when pixel (i, j) reads it at
offsets l < L, before writing it for the current pixel: the center chroma of
the previous pixel in the row, or the uninitialized content kc0 i at the
first interior column j = L (source lines 417, 430 read K_TI[i, L] which is
written only at l = L). -/
def staleCenter (X G : Plane) (L : ℕ) (rho : ℚ × ℚ × ℚ) (kc0 : ℤ → ℚ) (i j : ℤ) : ℚ :=
  if j = (L : ℤ) then kc0 i else K_TI_center X G L rho i (j - 1)

/-- the reference chroma actually read from K_TI[i, L] at offset l. -/
def refK (X G : Plane) (L : ℕ) (rho : ℚ × ℚ × ℚ) (kc0 : ℤ → ℚ) (i j : ℤ) (l : ℕ) : ℚ :=
  if l < L then staleCenter X G L rho kc0 i j else K_TI_center X G L rho i j

/-- chromaticity-sign weight numerator (source lines 417-420, Eq. (11)). -/
def W_Knum (X G : Plane) (L : ℕ) (rho : ℚ × ℚ × ℚ) (kc0 : ℤ → ℚ) (tau : ℚ) (i j : ℤ) (l : ℕ) : ℚ :=
  if sign (refK X G L rho kc0 i j l) = sign (K_TI X G L rho i j l) ∨ |K_TI X G L rho i j l| < tau
  then 1 else 0

/-- gradient and luma weight denominator (source lines 423-425, Eq. (12)). -/
def W_Kden (X G Y : Plane) (gX0 gG0 : ℤ → ℚ) (L : ℕ) (rho : ℚ × ℚ × ℚ) (aX : ℚ) (i j : ℤ) (l : ℕ) : ℚ :=
  |gradP G gG0 i (offCol L j l)| +
    max (|gradP X gX0 i (offCol L j l)|) (aX * |K_TI X G L rho i j l|) +
    |Y i j - Y i (offCol L j l)| + eps

/-- FC weight W_K at offset l (source lines 417-425). -/
def W_K (X G Y : Plane) (gX0 gG0 kc0 : ℤ → ℚ) (L : ℕ) (rho : ℚ × ℚ × ℚ) (aX tau : ℚ) (i j : ℤ) (l : ℕ) : ℚ :=
  W_Knum X G L rho kc0 tau i j l / W_Kden X G Y gX0 gG0 L rho aX i j l

/-- sum of the FC weights (source W_K_sum, zero-initialized at line 366). -/
def W_K_sum (X G Y : Plane) (gX0 gG0 kc0 : ℤ → ℚ) (L : ℕ) (rho : ℚ × ℚ × ℚ) (aX tau : ℚ) (i j : ℤ) : ℚ :=
  (List.range (2 * L + 1)).foldl
    (fun acc l => acc + W_K X G Y gX0 gG0 kc0 L rho aX tau i j l) 0

/-- initial contents of the np.empty buffers of one ti_and_ca_filtering1D
call that are read before being written: the FC output buffer K (accumulated
with += at line 430 without zeroing), the output buffers KTI, Xmax, Xmin
(read downstream at non-interior pixels), the K_TI scratch cell at index L
(kc0, read at line 417 before first write), and column 0 of the two gradient
buffers (gX0, gG0). -/
structure BufInit where
  K : Plane
  KTI : Plane
  Xmax : Plane
  Xmin : Plane
  kc0 : ℤ → ℚ
  gX0 : ℤ → ℚ
  gG0 : ℤ → ℚ

/-- the FC-filtered value K_hor[i, j] at an interior pixel: the accumulation
starts from the residual buffer content b.K i j (source line 430 uses += on
an np.empty buffer), and is divided by W_K_sum + eps (source line 434). -/
def K_hor_val (X G Y : Plane) (b : BufInit) (L : ℕ) (rho : ℚ × ℚ × ℚ) (aX tau : ℚ) (i j : ℤ) : ℚ :=
  ((List.range (2 * L + 1)).foldl
      (fun acc l => acc + W_K X G Y b.gX0 b.gG0 b.kc0 L rho aX tau i j l *
        clip (K_TI X G L rho i j l) (refK X G L rho b.kc0 i j l))
      (b.K i j)) /
    (W_K_sum X G Y b.gX0 b.gG0 b.kc0 L rho aX tau i j + eps)

/-- interior test of the per-pixel loops: both loops of
ti_and_ca_filtering1D run over [L, M-L) x [L, N-L) (source lines 364-365). -/
def interiorB (L M N : ℕ) (i j : ℤ) : Bool :=
  decide ((L : ℤ) ≤ i) && decide (i < (M : ℤ) - (L : ℤ)) &&
    decide ((L : ℤ) ≤ j) && decide (j < (N : ℤ) - (L : ℤ))

structure Filter1DOut where
  K : Plane
  KTI : Plane
  Xmax : Plane
  Xmin : Plane

/-- the four output planes of ti_and_ca_filtering1D (source lines 304-437):
interior pixels are computed, all other pixels keep the initial buffer
contents. -/
def filter1D (M N : ℕ) (X G Y : Plane) (L : ℕ) (rho : ℚ × ℚ × ℚ) (aX tau : ℚ) (b : BufInit) : Filter1DOut :=
  { K := fun i j => if interiorB L M N i j then K_hor_val X G Y b L rho aX tau i j else b.K i j
    KTI := fun i j => if interiorB L M N i j then K_TI_center X G L rho i j else b.KTI i j
    Xmax := fun i j => if interiorB L M N i j then X_max_env X L i j else b.Xmax i j
    Xmin := fun i j => if interiorB L M N i j then X_min_env X L i j else b.Xmin i j }

/-- row/column transpose of a plane (source transpose, lines 42-65). -/
def tp (X : Plane) : Plane := fun i j => X j i

/-- one iteration of the horizontal biased envelope scan of the arbitration
stage (source lines 507-515): East candidates at column j+l, West at
j-L+l+1; the East-min test compares against a candidate biased by
G[i, L+l] while the assignment uses G[i, j+l], exactly as the source. -/
def envStepArbHor (X G : Plane) (beta : ℚ) (L : ℕ) (i j : ℤ) (a : EnvAcc) (l : ℕ) : EnvAcc :=
  { emax := if X i (j + (l : ℤ)) - beta * |X i (j + (l : ℤ)) - G i (j + (l : ℤ))| > a.emax
            then X i (j + (l : ℤ)) - beta * |X i (j + (l : ℤ)) - G i (j + (l : ℤ))| else a.emax
    emin := if X i (j + (l : ℤ)) + beta * |X i (j + (l : ℤ)) - G i ((L : ℤ) + (l : ℤ))| < a.emin
            then X i (j + (l : ℤ)) + beta * |X i (j + (l : ℤ)) - G i (j + (l : ℤ))| else a.emin
    wmax := if X i (j - (L : ℤ) + (l : ℤ) + 1) - beta * |X i (j - (L : ℤ) + (l : ℤ) + 1) - G i (j - (L : ℤ) + (l : ℤ) + 1)| > a.wmax
            then X i (j - (L : ℤ) + (l : ℤ) + 1) - beta * |X i (j - (L : ℤ) + (l : ℤ) + 1) - G i (j - (L : ℤ) + (l : ℤ) + 1)| else a.wmax
    wmin := if X i (j - (L : ℤ) + (l : ℤ) + 1) + beta * |X i (j - (L : ℤ) + (l : ℤ) + 1) - G i (j - (L : ℤ) + (l : ℤ) + 1)| < a.wmin
            then X i (j - (L : ℤ) + (l : ℤ) + 1) + beta * |X i (j - (L : ℤ) + (l : ℤ) + 1) - G i (j - (L : ℤ) + (l : ℤ) + 1)| else a.wmin }

/-- pair selection and contrast of the arbitration envelope (source lines
518-524 and 563-569): the selected maximum minus the selected minimum. -/
def contrastSel (a : EnvAcc) : ℚ :=
  if a.emax - a.wmin ≥ a.wmax - a.emin then a.emax - a.wmin else a.wmax - a.emin

/-- horizontal biased contrast of the arbitration stage at an interior pixel
(source lines 499-524). -/
def contrastHor (X G : Plane) (beta : ℚ) (L : ℕ) (i j : ℤ) : ℚ :=
  contrastSel ((List.range L).foldl (envStepArbHor X G beta L i j) ⟨X i j, X i j, X i j, X i j⟩)

/-- one iteration of the vertical biased envelope scan of the arbitration
stage, running on the transposed planes Xt, Gt (source lines 552-560):
East candidates at column j+l+1, West at j-L+l; the East-min assignment
uses the garbled expression Xt[i, j+l] + 1 inside the absolute value,
exactly as the source. -/
def envStepArbVer (Xt Gt : Plane) (beta : ℚ) (L : ℕ) (i j : ℤ) (a : EnvAcc) (l : ℕ) : EnvAcc :=
  { emax := if Xt i (j + (l : ℤ) + 1) - beta * |Xt i (j + (l : ℤ) + 1) - Gt i (j + (l : ℤ) + 1)| > a.emax
            then Xt i (j + (l : ℤ) + 1) - beta * |Xt i (j + (l : ℤ) + 1) - Gt i (j + (l : ℤ) + 1)| else a.emax
    emin := if Xt i (j + (l : ℤ) + 1) + beta * |Xt i (j + (l : ℤ) + 1) - Gt i (j + (l : ℤ) + 1)| < a.emin
            then Xt i (j + (l : ℤ) + 1) + beta * |Xt i (j + (l : ℤ)) + 1 - Gt i (j + (l : ℤ) + 1)| else a.emin
    wmax := if Xt i (j - (L : ℤ) + (l : ℤ)) - beta * |Xt i (j - (L : ℤ) + (l : ℤ)) - Gt i (j - (L : ℤ) + (l : ℤ))| > a.wmax
            then Xt i (j - (L : ℤ) + (l : ℤ)) - beta * |Xt i (j - (L : ℤ) + (l : ℤ)) - Gt i (j - (L : ℤ) + (l : ℤ))| else a.wmax
    wmin := if Xt i (j - (L : ℤ) + (l : ℤ)) + beta * |Xt i (j - (L : ℤ) + (l : ℤ)) - Gt i (j - (L : ℤ) + (l : ℤ))| < a.wmin
            then Xt i (j - (L : ℤ) + (l : ℤ)) + beta * |Xt i (j - (L : ℤ) + (l : ℤ)) - Gt i (j - (L : ℤ) + (l : ℤ))| else a.wmin }

/-- vertical biased contrast of the arbitration stage, in the coordinates of
the transposed (N, M) buffer (source lines 544-569). -/
def contrastVer (Xt Gt : Plane) (beta : ℚ) (L : ℕ) (i j : ℤ) : ℚ :=
  contrastSel ((List.range L).foldl (envStepArbVer Xt Gt beta L i j) ⟨Xt i j, Xt i j, Xt i j, Xt i j⟩)

/-- Spec-side definition for comparison (claims C3 and C4), following the
words of spec section 4.4 step 1: the biased envelope scan uses the same
half-windows as the Filter1D envelope step, East [j+1, j+L] and West
[j-L, j-1], subtracting the bias beta * |X - G| for max candidates and
adding it for min candidates. -/
def envStepArbSpec (X G : Plane) (beta : ℚ) (L : ℕ) (i j : ℤ) (a : EnvAcc) (l : ℕ) : EnvAcc :=
  { emax := if X i (j + (l : ℤ) + 1) - beta * |X i (j + (l : ℤ) + 1) - G i (j + (l : ℤ) + 1)| > a.emax
            then X i (j + (l : ℤ) + 1) - beta * |X i (j + (l : ℤ) + 1) - G i (j + (l : ℤ) + 1)| else a.emax
    emin := if X i (j + (l : ℤ) + 1) + beta * |X i (j + (l : ℤ) + 1) - G i (j + (l : ℤ) + 1)| < a.emin
            then X i (j + (l : ℤ) + 1) + beta * |X i (j + (l : ℤ) + 1) - G i (j + (l : ℤ) + 1)| else a.emin
    wmax := if X i (j - (L : ℤ) + (l : ℤ)) - beta * |X i (j - (L : ℤ) + (l : ℤ)) - G i (j - (L : ℤ) + (l : ℤ))| > a.wmax
            then X i (j - (L : ℤ) + (l : ℤ)) - beta * |X i (j - (L : ℤ) + (l : ℤ)) - G i (j - (L : ℤ) + (l : ℤ))| else a.wmax
    wmin := if X i (j - (L : ℤ) + (l : ℤ)) + beta * |X i (j - (L : ℤ) + (l : ℤ)) - G i (j - (L : ℤ) + (l : ℤ))| < a.wmin
            then X i (j - (L : ℤ) + (l : ℤ)) + beta * |X i (j - (L : ℤ) + (l : ℤ)) - G i (j - (L : ℤ) + (l : ℤ))| else a.wmin }

/-- Spec-side horizontal biased contrast (claim C3): the spec prescribes the
Filter1D half-windows for the arbitration envelope recomputation. -/
def contrastHorSpec (X G : Plane) (beta : ℚ) (L : ℕ) (i j : ℤ) : ℚ :=
  contrastSel ((List.range L).foldl (envStepArbSpec X G beta L i j) ⟨X i j, X i j, X i j, X i j⟩)

/-- clamped normalization denominator of the arbitration weight
(source line 583): fmin(fmax(X_max - X_min, gamma_2), gamma_1). -/
def arbDenom (d g1 g2 : ℚ) : ℚ := min (max d g2) g1

/-- arbitration blend weight alpha_K (source line 583):
fmin(fmax(contrast, 0) / arbDenom, 1). -/
def alphaK (c d g1 g2 : ℚ) : ℚ := min (max c 0 / arbDenom d g1 g2) 1

/-- horizontal contrast plane of the arbitration stage: interior pixels of
the [L_hor, M-L_hor) x [L_hor, N-L_hor) loops are computed, all other
pixels keep the uninitialized buffer content c0 (source line 490 np.empty). -/
def contrastHorPlane (M N : ℕ) (X G : Plane) (beta : ℚ) (Lh : ℕ) (c0 : Plane) : Plane :=
  fun i j => if interiorB Lh M N i j then contrastHor X G beta Lh i j else c0 i j

/-- vertical contrast plane, transposed back to (M, N) orientation: the
(N, M) buffer is filled over [L_ver, N-L_ver) x [L_ver, M-L_ver) from the
transposed planes and transposed at line 570; non-computed cells keep the
uninitialized content c0 (indexed in buffer orientation). -/
def contrastVerPlane (M N : ℕ) (X G : Plane) (beta : ℚ) (Lv : ℕ) (c0 : Plane) : Plane :=
  fun i j => if interiorB Lv N M j i then contrastVer (tp X) (tp G) beta Lv j i else c0 j i

/-- arbitrated output K_out (source arbitration, lines 444-584): merged
contrast by pointwise maximum (lines 573-577), then the alpha blend of the
TI and FC chroma (lines 581-584). -/
def arbitration (M N : ℕ) (K KTI X G Xmax Xmin : Plane) (beta : ℚ) (Lh Lv : ℕ)
    (g1 g2 : ℚ) (cH0 cV0 : Plane) : Plane :=
  fun i j =>
    (1 - alphaK (max (contrastHorPlane M N X G beta Lh cH0 i j) (contrastVerPlane M N X G beta Lv cV0 i j))
        (Xmax i j - Xmin i j) g1 g2) * KTI i j +
      alphaK (max (contrastHorPlane M N X G beta Lh cH0 i j) (contrastVerPlane M N X G beta Lv cV0 i j))
        (Xmax i j - Xmin i j) g1 g2 * K i j

/-- scalar parameters of correct_chromatic_aberration together with the
image dimensions (source lines 71-73). -/
structure Params where
  M : ℕ
  N : ℕ
  Lh : ℕ
  Lv : ℕ
  rho : ℚ × ℚ × ℚ
  tau : ℚ
  aR : ℚ
  aB : ℚ
  bR : ℚ
  bB : ℚ
  g1 : ℚ
  g2 : ℚ

/-- initial contents of all np.empty buffers of the pipeline that can be
read before being written: one BufInit per ti_and_ca_filtering1D call, and
the two contrast buffers of each arbitration call. -/
structure PipeBuf where
  rHor : BufInit
  bHor : BufInit
  rVer : BufInit
  bVer : BufInit
  cHorR : Plane
  cVerR : Plane
  cHorB : Plane
  cVerB : Plane

/-- red channel plane of an interleaved image (source line 123). -/
def chR (I : Image) : Plane := fun i j => (I i j).1

/-- green channel plane (source line 124). -/
def chG (I : Image) : Plane := fun i j => (I i j).2.1

/-- blue channel plane (source line 125). -/
def chB (I : Image) : Plane := fun i j => (I i j).2.2

/-- luma plane Y = 0.299 R + 0.587 G + 0.114 B (source line 126). -/
def chY (I : Image) : Plane :=
  fun i j => 299 / 1000 * chR I i j + 587 / 1000 * chG I i j + 114 / 1000 * chB I i j

/-- horizontal red-channel filtering pass (source line 134). -/
def KrHor (p : Params) (u : PipeBuf) (I : Image) : Filter1DOut :=
  filter1D p.M p.N (chR I) (chG I) (chY I) p.Lh p.rho p.aR p.tau u.rHor

/-- horizontal blue-channel filtering pass (source line 139). -/
def KbHor (p : Params) (u : PipeBuf) (I : Image) : Filter1DOut :=
  filter1D p.M p.N (chB I) (chG I) (chY I) p.Lh p.rho p.aB p.tau u.bHor

/-- vertical red-channel filtering pass, on the transposed planes
(source lines 146-147); its outputs live in (N, M) orientation. -/
def KrVer (p : Params) (u : PipeBuf) (I : Image) : Filter1DOut :=
  filter1D p.N p.M (tp (chR I)) (tp (chG I)) (tp (chY I)) p.Lv p.rho p.aR p.tau u.rVer

/-- vertical blue-channel filtering pass (source lines 152-153). -/
def KbVer (p : Params) (u : PipeBuf) (I : Image) : Filter1DOut :=
  filter1D p.N p.M (tp (chB I)) (tp (chG I)) (tp (chY I)) p.Lv p.rho p.aB p.tau u.bVer

/-- merged FC red chroma (source lines 174-178): the smaller magnitude of
the horizontal and the transposed-back vertical value, ties to vertical. -/
def Kr (p : Params) (u : PipeBuf) (I : Image) : Plane :=
  fun i j => if |(KrHor p u I).K i j| < |(KrVer p u I).K j i|
             then (KrHor p u I).K i j else (KrVer p u I).K j i

/-- merged FC blue chroma (source lines 167-171). -/
def Kb (p : Params) (u : PipeBuf) (I : Image) : Plane :=
  fun i j => if |(KbHor p u I).K i j| < |(KbVer p u I).K j i|
             then (KbHor p u I).K i j else (KbVer p u I).K j i

/-- merged red TI chroma; the TI triple (K_TI, X_max, X_min) is selected
atomically by the smaller magnitude of K_TI (source lines 193-201). -/
def KrTI (p : Params) (u : PipeBuf) (I : Image) : Plane :=
  fun i j => if |(KrHor p u I).KTI i j| < |(KrVer p u I).KTI j i|
             then (KrHor p u I).KTI i j else (KrVer p u I).KTI j i

/-- merged red local maxima (source lines 193-201). -/
def Rmax (p : Params) (u : PipeBuf) (I : Image) : Plane :=
  fun i j => if |(KrHor p u I).KTI i j| < |(KrVer p u I).KTI j i|
             then (KrHor p u I).Xmax i j else (KrVer p u I).Xmax j i

/-- merged red local minima (source lines 193-201). -/
def Rmin (p : Params) (u : PipeBuf) (I : Image) : Plane :=
  fun i j => if |(KrHor p u I).KTI i j| < |(KrVer p u I).KTI j i|
             then (KrHor p u I).Xmin i j else (KrVer p u I).Xmin j i

/-- merged blue TI chroma (source lines 182-190). -/
def KbTI (p : Params) (u : PipeBuf) (I : Image) : Plane :=
  fun i j => if |(KbHor p u I).KTI i j| < |(KbVer p u I).KTI j i|
             then (KbHor p u I).KTI i j else (KbVer p u I).KTI j i

/-- merged blue local maxima (source lines 182-190). -/
def Bmax (p : Params) (u : PipeBuf) (I : Image) : Plane :=
  fun i j => if |(KbHor p u I).KTI i j| < |(KbVer p u I).KTI j i|
             then (KbHor p u I).Xmax i j else (KbVer p u I).Xmax j i

/-- merged blue local minima (source lines 182-190). -/
def Bmin (p : Params) (u : PipeBuf) (I : Image) : Plane :=
  fun i j => if |(KbHor p u I).KTI i j| < |(KbVer p u I).KTI j i|
             then (KbHor p u I).Xmin i j else (KbVer p u I).Xmin j i

/-- arbitrated red chroma K_rout (source line 206). -/
def Krout (p : Params) (u : PipeBuf) (I : Image) : Plane :=
  arbitration p.M p.N (Kr p u I) (KrTI p u I) (chR I) (chG I) (Rmax p u I) (Rmin p u I)
    p.bR p.Lh p.Lv p.g1 p.g2 u.cHorR u.cVerR

/-- arbitrated blue chroma K_bout (source line 207). -/
def Kbout (p : Params) (u : PipeBuf) (I : Image) : Plane :=
  arbitration p.M p.N (Kb p u I) (KbTI p u I) (chB I) (chG I) (Bmax p u I) (Bmin p u I)
    p.bB p.Lh p.Lv p.g1 p.g2 u.cHorB u.cVerB

/-- the full pipeline correct_chromatic_aberration (source lines 71-217):
channel split, four filtering passes, directional merges, arbitration, and
reconstruction I_out = (K_rout + G, G, K_bout + G) (lines 211-215). The
source performs no parameter or shape validation before computing. -/
def correct_chromatic_aberration (p : Params) (u : PipeBuf) (I : Image) : Image :=
  fun i j => (Krout p u I i j + chG I i j, chG I i j, Kbout p u I i j + chG I i j)

/-- Modelled from the spec: the boundary validation of sections 6 and 7
(positive half-windows, gamma_2 <= gamma_1 with gamma_2 > 0, windows that
fit in the image dimensions); the rho arity and the 3-channel shape are
structural in this embedding. The source contains no such check. -/
def specParamsValid (p : Params) : Bool :=
  decide (0 < p.Lh) && decide (0 < p.Lv) && decide (p.g2 ≤ p.g1) && decide (0 < p.g2) &&
    decide (2 * p.Lh + 1 ≤ p.N) && decide (2 * p.Lv + 1 ≤ p.M)

/-- concrete 3x3 test plane: 1 at the center pixel (1,1), 0 elsewhere. -/
def grayP : Plane := fun i j => if i = 1 ∧ j = 1 then 1 else 0

/-- concrete gray image: the three channel planes are pixel-wise identical. -/
def grayImg : Image := fun i j => (grayP i j, grayP i j, grayP i j)

def zeroPlane : Plane := fun _ _ => 0

def onePlane : Plane := fun _ _ => 1

def zeroRow : ℤ → ℚ := fun _ => 0

/-- buffer contents all zero (the intended initialization). -/
def bufZero : BufInit := ⟨zeroPlane, zeroPlane, zeroPlane, zeroPlane, zeroRow, zeroRow, zeroRow⟩

/-- buffer contents with residue 1 in the FC accumulator buffer. -/
def bufOne : BufInit := ⟨onePlane, zeroPlane, zeroPlane, zeroPlane, zeroRow, zeroRow, zeroRow⟩

def pbufZero : PipeBuf := ⟨bufZero, bufZero, bufZero, bufZero, zeroPlane, zeroPlane, zeroPlane, zeroPlane⟩

def pbufOne : PipeBuf := ⟨bufOne, bufOne, bufOne, bufOne, zeroPlane, zeroPlane, zeroPlane, zeroPlane⟩

/-- concrete well-formed parameters: 3x3 image, L_hor = L_ver = 1,
rho = (0,1,0), tau = 0, alpha_R = alpha_B = 1, beta_R = beta_B = 0,
gamma_1 = gamma_2 = 1. -/
def grayParams : Params := ⟨3, 3, 1, 1, (0, 1, 0), 0, 1, 1, 0, 0, 1, 1⟩

/-- concrete malformed parameters: gamma_2 = 2 > gamma_1 = 1. -/
def badParams : Params := ⟨3, 3, 1, 1, (0, 1, 0), 0, 1, 1, 0, 0, 1, 2⟩

/- ------------------------------------------------------------------ -/
/- Theorems -/
/- ------------------------------------------------------------------ -/

theorem eps_pos : 0 < eps := by norm_num [eps]

/-- one envelope step keeps the center sample between all four running
extrema. -/
theorem envStep_bounds (X : Plane) (i j : ℤ) (L : ℕ) (a : EnvAcc) (l : ℕ) (v : ℚ)
    (h1 : a.emin ≤ v) (h2 : a.wmin ≤ v) (h3 : v ≤ a.emax) (h4 : v ≤ a.wmax) :
    (envStep X i j L a l).emin ≤ v ∧ (envStep X i j L a l).wmin ≤ v ∧
      v ≤ (envStep X i j L a l).emax ∧ v ≤ (envStep X i j L a l).wmax := by
  unfold envStep
  refine ⟨?_, ?_, ?_, ?_⟩ <;> dsimp only <;> split <;> linarith

/-- the envelope fold keeps the center sample between all four extrema. -/
theorem envFold_bounds (X : Plane) (i j : ℤ) (L : ℕ) (v : ℚ) :
    ∀ (ls : List ℕ) (a : EnvAcc), a.emin ≤ v → a.wmin ≤ v → v ≤ a.emax → v ≤ a.wmax →
      (ls.foldl (envStep X i j L) a).emin ≤ v ∧ (ls.foldl (envStep X i j L) a).wmin ≤ v ∧
        v ≤ (ls.foldl (envStep X i j L) a).emax ∧ v ≤ (ls.foldl (envStep X i j L) a).wmax := by
  intro ls
  induction ls with
  | nil => intro a h1 h2 h3 h4; exact ⟨h1, h2, h3, h4⟩
  | cons l ls ih =>
      intro a h1 h2 h3 h4
      simp only [List.foldl_cons]
      have h := envStep_bounds X i j L a l v h1 h2 h3 h4
      exact ih (envStep X i j L a l) h.1 h.2.1 h.2.2.1 h.2.2.2

/-- the selected envelope brackets the center sample, with no side
condition: all four accumulators start at the center sample. -/
theorem envelope_bounds (X : Plane) (L : ℕ) (i j : ℤ) :
    X_min_env X L i j ≤ X i j ∧ X i j ≤ X_max_env X L i j := by
  have h := envFold_bounds X i j L (X i j) (List.range L) ⟨X i j, X i j, X i j, X i j⟩
    le_rfl le_rfl le_rfl le_rfl
  unfold X_min_env X_max_env envLoop
  constructor <;> split <;> tauto

/-- Claim C8: the clip operation is idempotent, and clipping against a zero
reference yields zero, for all rational inputs. -/
theorem C8_clip_idempotent_and_zero :
    ∀ K K_ref : ℚ, clip (clip K K_ref) K_ref = clip K K_ref ∧ clip K 0 = 0 := by
  intro K r
  constructor
  · unfold clip
    split
    · rw [min_assoc, min_self]
    · split
      · rw [max_assoc, max_self]
      · rfl
  · unfold clip
    norm_num

/-- Claim C7: for gamma_1 >= gamma_2 > 0 the arbitration blend weight of
source line 583 lies in [0, 1], and it coincides with the clamp form
written in the spec (an additional outer floor at 0). -/
theorem C7_alpha_in_unit_interval (c d g1 g2 : ℚ) (h1 : g2 ≤ g1) (h2 : 0 < g2) :
    0 ≤ alphaK c d g1 g2 ∧ alphaK c d g1 g2 ≤ 1 ∧
      alphaK c d g1 g2 = min (max (max c 0 / arbDenom d g1 g2) 0) 1 := by
  have hden : 0 < arbDenom d g1 g2 :=
    lt_min (lt_of_lt_of_le h2 (le_max_right d g2)) (lt_of_lt_of_le h2 h1)
  have hq : 0 ≤ max c 0 / arbDenom d g1 g2 := div_nonneg (le_max_right c 0) hden.le
  refine ⟨le_min hq zero_le_one, min_le_right _ 1, ?_⟩
  unfold alphaK
  rw [max_eq_left hq]

theorem C7_witness :
    0 ≤ alphaK 5 3 2 1 ∧ alphaK 5 3 2 1 ≤ 1 ∧
      alphaK 5 3 2 1 = min (max (max 5 0 / arbDenom 3 2 1) 0) 1 :=
  C7_alpha_in_unit_interval 5 3 2 1 (by norm_num) (by norm_num)

/-- the weight numerator is 0 or 1, hence nonnegative. -/
theorem W_Knum_nonneg (X G : Plane) (L : ℕ) (rho : ℚ × ℚ × ℚ) (kc0 : ℤ → ℚ)
    (tau : ℚ) (i j : ℤ) (l : ℕ) : 0 ≤ W_Knum X G L rho kc0 tau i j l := by
  unfold W_Knum
  split <;> norm_num

/-- the gradient and luma weight denominator is strictly positive. -/
theorem W_Kden_pos (X G Y : Plane) (gX0 gG0 : ℤ → ℚ) (L : ℕ) (rho : ℚ × ℚ × ℚ)
    (aX : ℚ) (i j : ℤ) (l : ℕ) : 0 < W_Kden X G Y gX0 gG0 L rho aX i j l := by
  unfold W_Kden
  have h1 : (0 : ℚ) ≤ |gradP G gG0 i (offCol L j l)| := abs_nonneg _
  have h2 : (0 : ℚ) ≤ max (|gradP X gX0 i (offCol L j l)|) (aX * |K_TI X G L rho i j l|) :=
    le_trans (abs_nonneg _) (le_max_left _ _)
  have h3 : (0 : ℚ) ≤ |Y i j - Y i (offCol L j l)| := abs_nonneg _
  have h4 := eps_pos
  linarith

/-- each FC weight is nonnegative. -/
theorem W_K_nonneg (X G Y : Plane) (gX0 gG0 kc0 : ℤ → ℚ) (L : ℕ) (rho : ℚ × ℚ × ℚ)
    (aX tau : ℚ) (i j : ℤ) (l : ℕ) : 0 ≤ W_K X G Y gX0 gG0 kc0 L rho aX tau i j l := by
  unfold W_K
  exact div_nonneg (W_Knum_nonneg X G L rho kc0 tau i j l)
    (W_Kden_pos X G Y gX0 gG0 L rho aX i j l).le

/-- a left fold that only adds nonnegative values stays nonnegative. -/
theorem foldl_add_nonneg (f : ℕ → ℚ) (hf : ∀ l, 0 ≤ f l) :
    ∀ (ls : List ℕ) (a : ℚ), 0 ≤ a → 0 ≤ ls.foldl (fun acc l => acc + f l) a := by
  intro ls
  induction ls with
  | nil => intro a ha; exact ha
  | cons l ls ih =>
      intro a ha
      simp only [List.foldl_cons]
      exact ih (a + f l) (by have := hf l; linarith)

/-- the weight sum is nonnegative. -/
theorem W_K_sum_nonneg (X G Y : Plane) (gX0 gG0 kc0 : ℤ → ℚ) (L : ℕ) (rho : ℚ × ℚ × ℚ)
    (aX tau : ℚ) (i j : ℤ) : 0 ≤ W_K_sum X G Y gX0 gG0 kc0 L rho aX tau i j := by
  unfold W_K_sum
  exact foldl_add_nonneg _ (fun l => W_K_nonneg X G Y gX0 gG0 kc0 L rho aX tau i j l)
    (List.range (2 * L + 1)) 0 le_rfl

/-- Claim C9: every division of the FC weighting and accumulation of
ti_and_ca_filtering1D and of the arbitration weight has a strictly positive
denominator for any rational (hence finite) inputs with
gamma_1 >= gamma_2 > 0: the per-offset weight denominator, the
epsilon-guarded weight-sum denominator of source line 434, and the
gamma-clamped denominator of source line 583. -/
theorem C9_denominators_positive (X G Y : Plane) (gX0 gG0 kc0 : ℤ → ℚ) (L : ℕ)
    (rho : ℚ × ℚ × ℚ) (aX tau d g1 g2 : ℚ) (i j : ℤ) (l : ℕ)
    (h1 : g2 ≤ g1) (h2 : 0 < g2) :
    0 < W_Kden X G Y gX0 gG0 L rho aX i j l ∧
      0 < W_K_sum X G Y gX0 gG0 kc0 L rho aX tau i j + eps ∧
      0 < arbDenom d g1 g2 := by
  refine ⟨W_Kden_pos X G Y gX0 gG0 L rho aX i j l, ?_, ?_⟩
  · have := W_K_sum_nonneg X G Y gX0 gG0 kc0 L rho aX tau i j
    have := eps_pos
    linarith
  · exact lt_min (lt_of_lt_of_le h2 (le_max_right d g2)) (lt_of_lt_of_le h2 h1)

theorem C9_witness :
    0 < W_Kden grayP grayP grayP zeroRow zeroRow 1 (0, 1, 0) 1 1 1 0 ∧
      0 < W_K_sum grayP grayP grayP zeroRow zeroRow zeroRow 1 (0, 1, 0) 1 0 1 1 + eps ∧
      0 < arbDenom 1 1 1 :=
  C9_denominators_positive grayP grayP grayP zeroRow zeroRow zeroRow 1 (0, 1, 0) 1 0 1 1 1 1 1 0
    (by norm_num) (by norm_num)

/-- Claim C6: at every interior pixel with a full window, the envelope
stored by ti_and_ca_filtering1D brackets the center sample:
X_min[i,j] <= X[i,j] <= X_max[i,j]. -/
theorem C6_envelope_invariant (M N : ℕ) (X G Y : Plane) (L : ℕ) (rho : ℚ × ℚ × ℚ)
    (aX tau : ℚ) (b : BufInit) (i j : ℤ)
    (hw : 2 * L + 1 ≤ N) (hint : interiorB L M N i j = true) :
    (filter1D M N X G Y L rho aX tau b).Xmin i j ≤ X i j ∧
      X i j ≤ (filter1D M N X G Y L rho aX tau b).Xmax i j := by
  have h := envelope_bounds X L i j
  simp only [filter1D, hint, if_true]
  exact h

theorem C6_witness :
    (filter1D 3 3 grayP grayP grayP 1 (0, 1, 0) 1 0 bufZero).Xmin 1 1 ≤ grayP 1 1 ∧
      grayP 1 1 ≤ (filter1D 3 3 grayP grayP grayP 1 (0, 1, 0) 1 0 bufZero).Xmax 1 1 :=
  C6_envelope_invariant 3 3 grayP grayP grayP 1 (0, 1, 0) 1 0 bufZero 1 1
    (by norm_num) (by decide)

/-- the column of the center offset is the pixel column itself. -/
theorem offCol_center (L : ℕ) (j : ℤ) : offCol L j L = j := by
  simp [offCol]

/-- the TI chroma at the window center never opposes the raw chroma
X - G and never exceeds it in magnitude. -/
theorem K_TI_center_bounds (X G : Plane) (L : ℕ) (rho : ℚ × ℚ × ℚ) (i j : ℤ) :
    |K_TI_center X G L rho i j| ≤ |X i j - G i j| ∧
      (K_TI_center X G L rho i j = 0 ∨
        sign (K_TI_center X G L rho i j) = sign (X i j - G i j)) := by
  have henv := envelope_bounds X L i j
  have hoc : offCol L j L = j := offCol_center L j
  have hK : K_TI_center X G L rho i j = X_TI X G L rho i j L - G i j := by
    unfold K_TI_center K_TI
    rw [hoc]
  by_cases hx : X i j > G i j
  · have hmax : X_TImax X G L i j L = X i j := by
      unfold X_TImax
      rw [if_pos hx, hoc]
    have hmin : X_TImin X G L i j L = max (X_min_env X L i j) (G i j) := by
      unfold X_TImin
      rw [if_pos hx, hoc]
    have hlohi : max (X_min_env X L i j) (G i j) ≤ X i j := max_le henv.1 (le_of_lt hx)
    have hti : max (X_min_env X L i j) (G i j) ≤ X_TI X G L rho i j L ∧
        X_TI X G L rho i j L ≤ X i j := by
      unfold X_TI
      rw [hmax, hmin]
      split
      · exact ⟨hlohi, le_rfl⟩
      · split
        · exact ⟨le_rfl, hlohi⟩
        · next hn1 hn2 => exact ⟨not_lt.1 hn2, not_lt.1 hn1⟩
    have hK0 : 0 ≤ K_TI_center X G L rho i j := by
      rw [hK]
      have := le_trans (le_max_right (X_min_env X L i j) (G i j)) hti.1
      linarith
    have hKle : K_TI_center X G L rho i j ≤ X i j - G i j := by
      rw [hK]
      linarith [hti.2]
    constructor
    · rw [abs_of_nonneg hK0, abs_of_pos (sub_pos.2 hx)]
      exact hKle
    · rcases eq_or_lt_of_le hK0 with h0 | hpos
      · exact Or.inl h0.symm
      · refine Or.inr ?_
        have hs1 : sign (K_TI_center X G L rho i j) = 1 := by
          unfold sign
          rw [if_pos hpos]
        have hs2 : sign (X i j - G i j) = 1 := by
          unfold sign
          rw [if_pos (sub_pos.2 hx)]
        rw [hs1, hs2]
  · have hg : X i j ≤ G i j := not_lt.1 hx
    have hmax : X_TImax X G L i j L = min (X_max_env X L i j) (G i j) := by
      unfold X_TImax
      rw [if_neg hx, hoc]
    have hmin : X_TImin X G L i j L = X i j := by
      unfold X_TImin
      rw [if_neg hx, hoc]
    have hlohi : X i j ≤ min (X_max_env X L i j) (G i j) := le_min henv.2 hg
    have hti : X i j ≤ X_TI X G L rho i j L ∧
        X_TI X G L rho i j L ≤ min (X_max_env X L i j) (G i j) := by
      unfold X_TI
      rw [hmax, hmin]
      split
      · exact ⟨hlohi, le_rfl⟩
      · split
        · exact ⟨le_rfl, hlohi⟩
        · next hn1 hn2 => exact ⟨not_lt.1 hn2, not_lt.1 hn1⟩
    have hK0 : K_TI_center X G L rho i j ≤ 0 := by
      rw [hK]
      have := le_trans hti.2 (min_le_right (X_max_env X L i j) (G i j))
      linarith
    have hKge : X i j - G i j ≤ K_TI_center X G L rho i j := by
      rw [hK]
      linarith [hti.1]
    constructor
    · rw [abs_of_nonpos hK0, abs_of_nonpos (sub_nonpos.2 hg)]
      linarith
    · rcases eq_or_lt_of_le hK0 with h0 | hneg
      · exact Or.inl h0
      · refine Or.inr ?_
        have hxg : X i j - G i j < 0 := by linarith
        have hs1 : sign (K_TI_center X G L rho i j) = -1 := by
          unfold sign
          rw [if_neg (by linarith), if_pos hneg]
        have hs2 : sign (X i j - G i j) = -1 := by
          unfold sign
          rw [if_neg (by linarith), if_pos hxg]
        rw [hs1, hs2]

/-- Claim C10: at every interior pixel, the center TI chroma stored by
ti_and_ca_filtering1D as K_TI_hor[i,j] has the same sign as the raw chroma
X[i,j] - G[i,j] or is zero, and never exceeds it in magnitude. -/
theorem C10_center_chroma_bounded (M N : ℕ) (X G Y : Plane) (L : ℕ) (rho : ℚ × ℚ × ℚ)
    (aX tau : ℚ) (b : BufInit) (i j : ℤ) (hint : interiorB L M N i j = true) :
    |(filter1D M N X G Y L rho aX tau b).KTI i j| ≤ |X i j - G i j| ∧
      ((filter1D M N X G Y L rho aX tau b).KTI i j = 0 ∨
        sign ((filter1D M N X G Y L rho aX tau b).KTI i j) = sign (X i j - G i j)) := by
  have h := K_TI_center_bounds X G L rho i j
  simp only [filter1D, hint, if_true]
  exact h

theorem C10_witness :
    |(filter1D 3 3 grayP zeroPlane zeroPlane 1 (0, 1, 0) 1 0 bufZero).KTI 1 1| ≤
        |grayP 1 1 - zeroPlane 1 1| ∧
      ((filter1D 3 3 grayP zeroPlane zeroPlane 1 (0, 1, 0) 1 0 bufZero).KTI 1 1 = 0 ∨
        sign ((filter1D 3 3 grayP zeroPlane zeroPlane 1 (0, 1, 0) 1 0 bufZero).KTI 1 1) =
          sign (grayP 1 1 - zeroPlane 1 1)) :=
  C10_center_chroma_bounded 3 3 grayP zeroPlane zeroPlane 1 (0, 1, 0) 1 0 bufZero 1 1 (by decide)

set_option maxRecDepth 8000 in
/-- Claim C1, evaluated at the failing input: on the 3x3 gray image (all
three channels equal to grayP) with well-formed parameters and residue 1 in
the np.empty FC accumulator buffers, the arbitrated chroma K_rout at the
interior pixel (1,1) is nonzero and the reconstructed image differs from
the input there: the += accumulation of source line 430 starts from the
uninitialized buffer content, which leaks into the output. -/
theorem C1_gray_uninit_nonzero :
    Krout grayParams pbufOne grayImg 1 1 ≠ 0 ∧
      correct_chromatic_aberration grayParams pbufOne grayImg 1 1 ≠ grayImg 1 1 := by
  with_unfolding_all decide

set_option maxRecDepth 8000 in
/-- supporting fact: with all buffers zero-initialized (the intended fix),
the same gray input yields zero arbitrated chroma at the interior pixel and
the reconstruction returns the input exactly, as the spec states. -/
theorem gray_zero_buffers_identity :
    Krout grayParams pbufZero grayImg 1 1 = 0 ∧
      correct_chromatic_aberration grayParams pbufZero grayImg 1 1 = grayImg 1 1 := by
  with_unfolding_all decide

/-- Claim C2, evaluated at the failing input: the FC output of
ti_and_ca_filtering1D at the interior pixel (1,1) changes when only the
initial content of the output buffer changes (0 versus 1), so the
accumulation does not start from zero and the result does not depend only
on the input planes and parameters. -/
theorem C2_uninit_accumulator_dependence :
    (filter1D 3 3 grayP grayP grayP 1 (0, 1, 0) 1 0 bufZero).K 1 1 ≠
      (filter1D 3 3 grayP grayP grayP 1 (0, 1, 0) 1 0 bufOne).K 1 1 := by
  with_unfolding_all decide

/-- Claim C3, evaluated at the failing input: with X = G = grayP, beta = 0
and L_hor = 1, the arbitration horizontal pass of the source computes
contrast 0 at pixel (1,1) because its scan covers East [j, j+L-1] and West
[j-L+1, j] (both no-ops for L = 1), while the half-windows claimed by the
spec (the Filter1D windows East [j+1, j+L], West [j-L, j-1]) give
contrast 1. -/
theorem C3_window_divergence :
    contrastHor grayP grayP 0 1 1 1 = 0 ∧ contrastHorSpec grayP grayP 0 1 1 1 = 1 := by
  with_unfolding_all decide

/-- Claim C4, evaluated at the failing input: on the same transposed planes
Xt = Gt = grayP with beta = 0 and L = 1, the vertical biased-contrast
computation of the source yields 1 at (1,1) while the horizontal
computation applied to those planes yields 0, so the vertical pass is not
the horizontal pass transposed. -/
theorem C4_passes_not_transposed :
    contrastVer (tp grayP) (tp grayP) 0 1 1 1 = 1 ∧
      contrastHor (tp grayP) (tp grayP) 0 1 1 1 = 0 := by
  with_unfolding_all decide

set_option maxRecDepth 8000 in
/-- Claim C5, counterexample: the malformed parameter set badParams
(gamma_2 = 2 > gamma_1 = 1) fails the validation the spec prescribes, yet
the transform is not rejected: the full computation runs and produces an
output image, which at pixel (1,1) even differs from the input. -/
theorem C5_counterexample :
    specParamsValid badParams = false ∧
      correct_chromatic_aberration badParams pbufOne grayImg 1 1 ≠ grayImg 1 1 := by
  with_unfolding_all decide

/-- Claim C5, amended: the source performs no validation at all, so even a
parameter set failing the spec-side validity predicate is processed to
completion and an output image is produced (its green channel is the input
green channel passed through the reconstruction of source line 214). -/
theorem C5_no_rejection (p : Params) (u : PipeBuf) (I : Image) (i j : ℤ)
    (h : specParamsValid p = false) :
    (correct_chromatic_aberration p u I i j).2.1 = (I i j).2.1 := rfl

theorem C5_witness :
    (correct_chromatic_aberration badParams pbufOne grayImg 1 1).2.1 = (grayImg 1 1).2.1 :=
  C5_no_rejection badParams pbufOne grayImg 1 1 (by decide)

end CAC
